import Mathlib

/-!
Shallow embedding of the marketing-module core (customer segmentation,
campaign lifecycle, analytics) and proofs of the specification claims.

Conventions of the embedding:
* Python dicts with a fixed key set become Lean structures; a key that may be
  absent becomes an `Option` field (a key present with value `None` behaves
  identically to an absent key in every read site of the source, so both are
  collapsed to `none`).
* Python `float` arithmetic is modelled exactly over `ℚ`; Python `round`
  (round-half-to-even) becomes `pyRound`; `int(x)` (truncation toward zero)
  becomes `pyInt`.
* The injected effects — the fresh UUID, the creation timestamp, the random
  draws of `random.uniform`, and the e-mail provider's `send` — are passed as
  explicit parameters.
* The JSON-file repository is modelled as the list of stored entities;
  read-modify-write of the whole collection is list transformation.
-/

namespace Marketing

/-- Rounding of an exact rational to the nearest integer, ties to even:
the behaviour of Python `round` on exact values. -/
def roundHalfEven (q : ℚ) : ℤ :=
  let n : ℤ := ⌊q⌋
  if q - n < 1/2 then n
  else if 1/2 < q - n then n + 1
  else if n % 2 = 0 then n else n + 1

/-- Python `round(q, p)`: round to `p` decimal places, ties to even. -/
def pyRound (p : ℕ) (q : ℚ) : ℚ :=
  (roundHalfEven (q * 10 ^ p) : ℚ) / 10 ^ p

/-- Python `int(q)`: truncation toward zero. -/
def pyInt (q : ℚ) : ℤ :=
  if 0 ≤ q then ⌊q⌋ else -⌊-q⌋

/-- Python `str.lower`, per character (ASCII case mapping; the data in this
module is ASCII). -/
def pyLower (s : String) : String := String.mk (s.data.map Char.toLower)

/-- Python `str.strip()`: remove leading and trailing whitespace. -/
def pyStrip (s : String) : String :=
  String.mk (((s.data.dropWhile Char.isWhitespace).reverse.dropWhile Char.isWhitespace).reverse)

/-- Customer entity (src/models/customer.py). `total_spent` is a Python
float, modelled exactly as a rational. -/
structure Customer where
  id : String
  name : String
  email : String
  city : String
  age : Int
  spending_score : Int
  total_spent : ℚ
  is_active : Bool
deriving DecidableEq, Repr

/-- Serialized form of a Customer: `Customer.to_dict` writes every field
under its own key, so the dict has exactly the entity's fields. -/
structure CustomerDict where
  id : String
  name : String
  email : String
  city : String
  age : Int
  spending_score : Int
  total_spent : ℚ
  is_active : Bool
deriving DecidableEq, Repr

/-- `Customer.to_dict` (src/models/customer.py, lines 33-44). -/
def Customer.to_dict (c : Customer) : CustomerDict :=
  ⟨c.id, c.name, c.email, c.city, c.age, c.spending_score, c.total_spent, c.is_active⟩

/-- `Customer.from_dict` (src/models/customer.py, lines 46-58). -/
def Customer.from_dict (d : CustomerDict) : Customer :=
  ⟨d.id, d.name, d.email, d.city, d.age, d.spending_score, d.total_spent, d.is_active⟩

/-- Segmentation criteria dict: each supported key is optional.  A key that
is present with value `None` is skipped by every guard in
`_matches_criteria` exactly like an absent key, so both are `none` here.
A present empty-string city is representable as `some ""`. -/
structure Criteria where
  city : Option String := none
  min_age : Option Int := none
  max_age : Option Int := none
  min_spent : Option ℚ := none
  max_spent : Option ℚ := none
  min_spending_score : Option Int := none
  max_spending_score : Option Int := none
  is_active : Option Bool := none
deriving DecidableEq, Repr

/-- The empty criteria dict (`{}`), which is falsy in Python. -/
def Criteria.empty : Criteria := {}

/-- `SegmentationService._matches_criteria` (src/services/segmentation.py,
lines 76-125).  Note the city guard: `if 'city' in criteria and
criteria['city']` skips the check when the value is an empty (falsy)
string, while the numeric and boolean guards only skip on `None`. -/
def matchesCriteria (customer : Customer) (criteria : Criteria) : Bool :=
  (match criteria.city with
   | some c => if c = "" then true else pyLower customer.city = pyLower c
   | none => true) &&
  (match criteria.min_age with
   | some a => !(customer.age < a)
   | none => true) &&
  (match criteria.max_age with
   | some a => !(a < customer.age)
   | none => true) &&
  (match criteria.min_spent with
   | some s => !(customer.total_spent < s)
   | none => true) &&
  (match criteria.max_spent with
   | some s => !(s < customer.total_spent)
   | none => true) &&
  (match criteria.min_spending_score with
   | some s => !(customer.spending_score < s)
   | none => true) &&
  (match criteria.max_spending_score with
   | some s => !(s < customer.spending_score)
   | none => true) &&
  (match criteria.is_active with
   | some b => customer.is_active = b
   | none => true)

/-- `SegmentationService.filter_customers` (src/services/segmentation.py,
lines 37-74): keeps, in order, the customers matching all criteria. -/
def filter_customers (customers : List Customer) (criteria : Criteria) : List Customer :=
  customers.filter (fun c => matchesCriteria c criteria)

/-- Aggregate returned by `get_segment_statistics`. -/
structure SegmentStatistics where
  total_count : ℕ
  active_count : ℕ
  avg_age : ℚ
  avg_spending_score : ℚ
  total_revenue : ℚ
  avg_revenue_per_customer : ℚ
deriving DecidableEq, Repr

/-- `SegmentationService.get_segment_statistics`
(src/services/segmentation.py, lines 127-159). -/
def get_segment_statistics (customers : List Customer) : SegmentStatistics :=
  if customers.isEmpty then ⟨0, 0, 0, 0, 0, 0⟩
  else
    let n : ℕ := customers.length
    let active_count := (customers.filter (fun c => c.is_active)).length
    let total_age : ℤ := (customers.map (fun c => c.age)).sum
    let total_spending_score : ℤ := (customers.map (fun c => c.spending_score)).sum
    let total_revenue : ℚ := (customers.map (fun c => c.total_spent)).sum
    ⟨n, active_count,
     pyRound 1 ((total_age : ℚ) / n),
     pyRound 1 ((total_spending_score : ℚ) / n),
     pyRound 2 total_revenue,
     pyRound 2 (total_revenue / n)⟩

/-! Datetime and its ISO-8601 round trip.  `Campaign.to_dict` serializes
`created_at` with `datetime.isoformat()` and `Campaign.from_dict` parses it
back with `datetime.fromisoformat()`.  The stdlib pair is modelled from the
spec's "timestamps as ISO-8601 strings": `isoformat` prints
`YYYY-MM-DDTHH:MM:SS[.ffffff]` (fraction omitted when the microsecond field
is zero) and `fromisoformat` parses that shape. -/

/-- Naive datetime value (the calendar fields that determine
`datetime.isoformat()`). -/
structure DateTime where
  year : ℕ
  month : ℕ
  day : ℕ
  hour : ℕ
  minute : ℕ
  second : ℕ
  microsecond : ℕ
deriving DecidableEq, Repr

/-- Character of a single decimal digit. -/
def digitChar (d : ℕ) : Char := Char.ofNat (48 + d)

/-- Whether a character is a decimal digit. -/
def isDigitChar (c : Char) : Bool := 48 ≤ c.toNat && c.toNat ≤ 57

/-- Little-endian digit characters of `n`, exactly `w` of them. -/
def padRev : ℕ → ℕ → List Char
  | 0, _ => []
  | w + 1, n => digitChar (n % 10) :: padRev w (n / 10)

/-- Zero-padded fixed-width decimal rendering of `n`, `w` characters. -/
def pad (w n : ℕ) : List Char := (padRev w n).reverse

/-- Value of a little-endian digit-character list. -/
def valRev : List Char → ℕ
  | [] => 0
  | c :: cs => (c.toNat - 48) + 10 * valRev cs

/-- Value of a big-endian digit-character list. -/
def valBE (cs : List Char) : ℕ := valRev cs.reverse

/-- Read a fixed-width decimal field off the front of a character list. -/
def readField (w : ℕ) (cs : List Char) : Option (ℕ × List Char) :=
  let f := cs.take w
  if f.length = w ∧ f.all isDigitChar then some (valBE f, cs.drop w) else none

/-- Consume one expected separator character. -/
def expectChar (c : Char) : List Char → Option (List Char)
  | [] => none
  | x :: xs => if x = c then some xs else none

/-- `datetime.isoformat()` as a character list. -/
def isoformat (d : DateTime) : List Char :=
  pad 4 d.year ++ '-' :: pad 2 d.month ++ '-' :: pad 2 d.day ++
  'T' :: pad 2 d.hour ++ ':' :: pad 2 d.minute ++ ':' :: pad 2 d.second ++
  (if d.microsecond = 0 then [] else '.' :: pad 6 d.microsecond)

/-- `datetime.fromisoformat` on the shapes `isoformat` produces. -/
def fromisoformat (cs : List Char) : Option DateTime := do
  let (y, cs) ← readField 4 cs
  let cs ← expectChar '-' cs
  let (mo, cs) ← readField 2 cs
  let cs ← expectChar '-' cs
  let (da, cs) ← readField 2 cs
  let cs ← expectChar 'T' cs
  let (h, cs) ← readField 2 cs
  let cs ← expectChar ':' cs
  let (mi, cs) ← readField 2 cs
  let cs ← expectChar ':' cs
  let (s, cs) ← readField 2 cs
  match cs with
  | [] => some ⟨y, mo, da, h, mi, s, 0⟩
  | '.' :: rest =>
    let (u, rest) ← readField 6 rest
    if rest = [] then some ⟨y, mo, da, h, mi, s, u⟩ else none
  | _ => none

/-- In-range calendar fields (what an actual Python `datetime` satisfies;
what the fixed-width rendering needs). -/
def DateTime.wf (d : DateTime) : Prop :=
  d.year < 10000 ∧ d.month < 100 ∧ d.day < 100 ∧ d.hour < 100 ∧
  d.minute < 100 ∧ d.second < 100 ∧ d.microsecond < 1000000

instance (d : DateTime) : Decidable d.wf := by
  unfold DateTime.wf; infer_instance

/-- Campaign stats dict.  The source only ever reads or writes the keys
`sent`, `opened`, `clicked`, `failed`; a `none` field is an absent key
(read back with `.get(key, 0)` at every read site that tolerates absence). -/
structure Stats where
  sent : Option Int := none
  opened : Option Int := none
  clicked : Option Int := none
  failed : Option Int := none
deriving DecidableEq, Repr

/-- Campaign entity (src/models/campaign.py).  `__post_init__` forces
`created_at` to a concrete datetime, so the field is total here. -/
structure Campaign where
  id : String
  title : String
  content_template : String
  target_segment_criteria : Criteria
  status : String
  created_at : DateTime
  stats : Stats
deriving DecidableEq, Repr

/-- Serialized form of a Campaign: `created_at` is the ISO-8601 string. -/
structure CampaignDict where
  id : String
  title : String
  content_template : String
  target_segment_criteria : Criteria
  status : String
  created_at : List Char
  stats : Stats
deriving DecidableEq, Repr

/-- `Campaign.to_dict` (src/models/campaign.py, lines 37-47). -/
def Campaign.to_dict (c : Campaign) : CampaignDict :=
  ⟨c.id, c.title, c.content_template, c.target_segment_criteria, c.status,
   isoformat c.created_at, c.stats⟩

/-- `Campaign.from_dict` (src/models/campaign.py, lines 49-64); `none` when
`datetime.fromisoformat` rejects the stored string (it would raise). -/
def Campaign.from_dict (d : CampaignDict) : Option Campaign :=
  (fromisoformat d.created_at).map fun dt =>
    ⟨d.id, d.title, d.content_template, d.target_segment_criteria, d.status, dt, d.stats⟩

/-! Repository, modelled as the list of stored campaigns.  Serialization is
bijective on well-formed campaigns (claim C9), so entity lists stand in for
the stored dict lists. -/

/-- `JsonRepository.get_by_id` (src/repository/json_repo.py, lines 79-93):
first entity whose id matches. -/
def get_by_id (repo : List Campaign) (entity_id : String) : Option Campaign :=
  repo.find? (fun c => c.id = entity_id)

/-- `JsonRepository.update` (src/repository/json_repo.py, lines 110-127):
replaces the first entity whose id matches, leaves the rest unchanged. -/
def updateEntity : List Campaign → String → Campaign → List Campaign
  | [], _, _ => []
  | x :: xs, entity_id, c =>
    if x.id = entity_id then c :: xs else x :: updateEntity xs entity_id c

/-! Campaign service (src/services/campaign.py). -/

/-- `CampaignService.create_campaign` (src/services/campaign.py, lines
41-86).  The fresh UUID and the creation instant are injected as `newId`
and `now`; `save` appends the new entity to the collection.  The error
strings are the `ValueError` messages of the source.  Validation of
`target_segment_criteria` is Python dict truthiness: the empty dict is
rejected. -/
def create_campaign (repo : List Campaign) (newId : String) (now : DateTime)
    (title content_template : String) (criteria : Criteria) :
    Except String (Campaign × List Campaign) :=
  if pyStrip title = "" then .error "Campaign title cannot be empty"
  else if pyStrip content_template = "" then .error "Campaign content template cannot be empty"
  else if criteria = Criteria.empty then .error "Target segment criteria cannot be empty"
  else
    let campaign : Campaign :=
      ⟨newId, pyStrip title, pyStrip content_template, criteria, "Draft", now,
       { sent := some 0, opened := some 0, clicked := some 0 }⟩
    .ok (campaign, repo ++ [campaign])

/-- Python `s.replace(pat, rep)`, non-overlapping left-to-right, written
with a step-count so the recursion is structural.  Never called with an
empty `pat` in this module (the guard returns `s` unchanged there). -/
def replaceLoop (pat rep : List Char) : ℕ → List Char → List Char
  | 0, s => s
  | fuel + 1, s =>
    match s with
    | [] => []
    | c :: cs =>
      if pat ≠ [] ∧ pat.isPrefixOf (c :: cs)
      then rep ++ replaceLoop pat rep fuel ((c :: cs).drop pat.length)
      else c :: replaceLoop pat rep fuel cs

/-- Python `s.replace(pat, rep)` on strings. -/
def pyReplace (s pat rep : String) : String :=
  String.mk (replaceLoop pat.data rep.data s.data.length s.data)

/-- `CampaignService._personalize_content` (src/services/campaign.py,
lines 185-205): literal, position-independent placeholder substitution. -/
def personalize_content (template : String) (customer : Customer) : String :=
  pyReplace (pyReplace (pyReplace template "{name}" customer.name)
    "{email}" customer.email) "{city}" customer.city

/-- One invocation of the e-mail provider: the arguments the source passes
to `IEmailProvider.send`. -/
structure SendCall where
  to_email : String
  subject : String
  body : String
deriving DecidableEq, Repr

/-- Dict returned by `launch_campaign`.  The empty-audience dict carries no
`emails_failed` and no `campaign_id` key, hence the `Option` fields. -/
structure LaunchResult where
  success : Bool
  message : String
  emails_sent : ℕ
  emails_failed : Option ℕ
  target_audience_size : ℕ
  campaign_id : Option String
deriving DecidableEq, Repr

/-- `CampaignService.launch_campaign` (src/services/campaign.py, lines
88-183).  The e-mail provider is the injected pure function `send`
(to_email, subject, body ↦ delivered); the loop over the audience becomes
counting, and the send attempts are returned as an ordered trace.
Failure of `get_by_id` and an already-Sent status raise `ValueError`,
modelled as `Except.error` with the source's messages. -/
def launch_campaign (repo : List Campaign) (customers : List Customer)
    (send : String → String → String → Bool) (campaign_id : String) :
    Except String (LaunchResult × List Campaign × List SendCall) :=
  match get_by_id repo campaign_id with
  | none => .error ("Campaign with ID " ++ campaign_id ++ " not found")
  | some campaign =>
    if campaign.status = "Sent" then .error "Campaign has already been sent"
    else
      let target_customers := filter_customers customers campaign.target_segment_criteria
      if target_customers.isEmpty then
        .ok (⟨false, "No customers match target criteria", 0, none, 0, none⟩, repo, [])
      else
        let attempt : Customer → SendCall := fun c =>
          ⟨c.email, campaign.title, personalize_content campaign.content_template c⟩
        let trace := target_customers.map attempt
        let ok : Customer → Bool := fun c =>
          send c.email campaign.title (personalize_content campaign.content_template c)
        let emails_sent := target_customers.countP ok
        let emails_failed := target_customers.countP (fun c => !ok c)
        let campaign' : Campaign :=
          { campaign with
            status := "Sent"
            stats := { campaign.stats with sent := some (emails_sent : ℤ) } }
        .ok (⟨true, "Campaign launched successfully", emails_sent, some emails_failed,
              target_customers.length, some campaign.id⟩,
             updateEntity repo campaign.id campaign', trace)

/-! Analytics service (src/services/analytics.py). -/

/-- `AnalyticsService.simulate_engagement` (src/services/analytics.py,
lines 39-91).  The two `random.uniform` draws are injected as `r1`
(open rate, drawn from [0.25, 0.65]) and `r2` (click rate of opens, drawn
from [0.05, 0.20]); Python `int(...)` is `pyInt`.  Returns the (possibly
updated) campaign and the repository after the conditional persist. -/
def simulate_engagement (repo : List Campaign) (r1 r2 : ℚ) (campaign_id : String) :
    Except String (Campaign × List Campaign) :=
  match get_by_id repo campaign_id with
  | none => .error ("Campaign with ID " ++ campaign_id ++ " not found.")
  | some campaign =>
    if 0 < campaign.stats.sent.getD 0 ∧ campaign.stats.opened.getD 0 = 0 ∧
        campaign.stats.clicked.getD 0 = 0 then
      let emails_sent := campaign.stats.sent.getD 0
      let emails_opened := pyInt ((emails_sent : ℚ) * r1)
      let emails_clicked := pyInt ((emails_opened : ℚ) * r2)
      let campaign' : Campaign :=
        { campaign with
          stats := { campaign.stats with
                     opened := some emails_opened, clicked := some emails_clicked } }
      .ok (campaign', updateEntity repo campaign_id campaign')
    else
      .ok (campaign, repo)

/-- Dict returned by `get_campaign_performance` (the metric fields; the
raw counters and campaign metadata are carried along as in the source). -/
structure Performance where
  sent : ℤ
  opened : ℤ
  clicked : ℤ
  failed : ℤ
  delivery_rate : ℚ
  open_rate : ℚ
  click_rate : ℚ
  click_through_rate : ℚ
  roi_prediction : ℚ
  engagement_score : ℚ
  campaign_title : String
  campaign_status : String
  target_criteria : Criteria
deriving DecidableEq, Repr

/-- `AnalyticsService.get_campaign_performance` (src/services/analytics.py,
lines 93-160): rate formulas with division-by-zero guarded to 0, Python
`round` at 2 decimals (1 for the engagement score). -/
def get_campaign_performance (repo : List Campaign) (campaign_id : String) :
    Except String Performance :=
  match get_by_id repo campaign_id with
  | none => .error ("Campaign with ID " ++ campaign_id ++ " not found.")
  | some campaign =>
    let sent := campaign.stats.sent.getD 0
    let opened := campaign.stats.opened.getD 0
    let clicked := campaign.stats.clicked.getD 0
    let failed := campaign.stats.failed.getD 0
    let total_attempted := sent + failed
    let delivery_rate : ℚ :=
      if 0 < total_attempted then (sent : ℚ) / (total_attempted : ℚ) * 100 else 0
    let open_rate : ℚ := if 0 < sent then (opened : ℚ) / (sent : ℚ) * 100 else 0
    let click_rate : ℚ := if 0 < opened then (clicked : ℚ) / (opened : ℚ) * 100 else 0
    let click_through_rate : ℚ := if 0 < sent then (clicked : ℚ) / (sent : ℚ) * 100 else 0
    let roi_prediction : ℚ := (clicked : ℚ) * 15
    let engagement_score : ℚ := min 100 (open_rate * (6/10) + click_through_rate * 4)
    .ok ⟨sent, opened, clicked, failed,
         pyRound 2 delivery_rate, pyRound 2 open_rate, pyRound 2 click_rate,
         pyRound 2 click_through_rate, pyRound 2 roi_prediction,
         pyRound 1 engagement_score,
         campaign.title, campaign.status, campaign.target_segment_criteria⟩

/-! Spec-side matcher, for comparison with the implementation.  It follows
the claim's wording: every present criterion constrains — the city field,
whenever present, is a case-insensitive exact match (no empty-string
exemption); numeric bounds are inclusive; is_active is exact equality. -/

/-- Matching as the specification words it: all present fields constrain. -/
def specMatchesCriteria (customer : Customer) (criteria : Criteria) : Bool :=
  (match criteria.city with
   | some c => pyLower customer.city = pyLower c
   | none => true) &&
  (match criteria.min_age with
   | some a => a ≤ customer.age
   | none => true) &&
  (match criteria.max_age with
   | some a => customer.age ≤ a
   | none => true) &&
  (match criteria.min_spent with
   | some s => s ≤ customer.total_spent
   | none => true) &&
  (match criteria.max_spent with
   | some s => customer.total_spent ≤ s
   | none => true) &&
  (match criteria.min_spending_score with
   | some s => s ≤ customer.spending_score
   | none => true) &&
  (match criteria.max_spending_score with
   | some s => customer.spending_score ≤ s
   | none => true) &&
  (match criteria.is_active with
   | some b => customer.is_active = b
   | none => true)

/-! Concrete fixtures used by witnesses and counterexamples. -/

/-- A concrete creation instant. -/
def sampleDate : DateTime := ⟨2025, 10, 12, 9, 30, 0, 0⟩

/-- A customer living in Ankara. -/
def ankaraCustomer : Customer :=
  ⟨"cu-1", "Ada", "ada@example.com", "Ankara", 30, 50, 100, true⟩

/-- A second Ankara customer, city spelled with mixed case. -/
def ankaraCustomer2 : Customer :=
  ⟨"cu-2", "Cy", "cy@example.com", "aNkArA", 25, 70, 300, false⟩

/-- A customer living in Izmir. -/
def izmirCustomer : Customer :=
  ⟨"cu-3", "Bo", "bo@example.com", "Izmir", 40, 60, 200, true⟩

/-- A draft campaign targeting Ankara. -/
def draftCampaign : Campaign :=
  ⟨"cmp-1", "Hello", "Hi {name} from {city}", { city := some "Ankara" }, "Draft",
   sampleDate, { sent := some 0, opened := some 0, clicked := some 0 }⟩

/-- A draft campaign whose criteria match no customer of the fixtures. -/
def nowhereCampaign : Campaign :=
  ⟨"cmp-2", "Hi", "Hi {name}", { city := some "Nowhere" }, "Draft",
   sampleDate, { sent := some 0, opened := some 0, clicked := some 0 }⟩

/-- A sent campaign with the stats of the spec's analytics scenario. -/
def sentCampaign : Campaign :=
  ⟨"cmp-3", "Perf", "Hi {name}", { city := some "Ankara" }, "Sent",
   sampleDate, { sent := some 100, opened := some 40, clicked := some 8 }⟩

/-- A just-launched campaign: sent positive, opened and clicked zero. -/
def justLaunchedCampaign : Campaign :=
  ⟨"cmp-4", "Sim", "Hi {name}", { city := some "Ankara" }, "Sent",
   sampleDate, { sent := some 100, opened := some 0, clicked := some 0 }⟩

/-- The campaign `create_campaign` builds from the fixture inputs. -/
def createdSample : Campaign :=
  ⟨"id-1", "Spring Sale", "Hello {name}", { city := some "Ankara" }, "Draft",
   sampleDate, { sent := some 0, opened := some 0, clicked := some 0 }⟩

/-! Repository lemmas shared by the lifecycle proofs. -/

/-- The entity returned by `get_by_id` carries the looked-up id. -/
theorem get_by_id_id {repo : List Campaign} {i : String} {c : Campaign}
    (h : get_by_id repo i = some c) : c.id = i := by
  unfold get_by_id at h
  simpa using List.find?_some h

/-- After replacing the stored entity under id `i`, `get_by_id i` returns
the replacement. -/
theorem get_by_id_updateEntity (c' : Campaign) {repo : List Campaign} {i : String}
    {c : Campaign} (hmem : get_by_id repo i = some c) (hid : c'.id = i) :
    get_by_id (updateEntity repo i c') i = some c' := by
  induction repo with
  | nil => simp [get_by_id] at hmem
  | cons x xs ih =>
    by_cases hx : x.id = i
    · simp [updateEntity, hx, get_by_id, List.find?_cons_of_pos, hid]
    · unfold get_by_id at hmem ⊢
      rw [List.find?_cons_of_neg _ (by simpa using hx)] at hmem
      simpa [updateEntity, hx, List.find?_cons_of_neg, hx] using ih hmem

/-- A matcher factor-by-factor comparison: away from an empty-string city
criterion, the implementation's matcher agrees with the spec-worded one. -/
theorem matchesCriteria_eq_spec (x : Customer) (cr : Criteria)
    (hcity : ∀ s, cr.city = some s → s ≠ "") :
    matchesCriteria x cr = specMatchesCriteria x cr := by
  rcases cr with ⟨c, a1, a2, s1, s2, ss1, ss2, ia⟩
  have hc : ∀ s, c = some s → s ≠ "" := fun s hs => hcity s hs
  clear hcity
  unfold matchesCriteria specMatchesCriteria
  cases c with
  | none =>
    cases a1 <;> cases a2 <;> cases s1 <;> cases s2 <;> cases ss1 <;> cases ss2 <;> cases ia <;>
      simp [← decide_not, not_lt]
  | some s =>
    have hs : ¬ (s = "") := hc s rfl
    cases a1 <;> cases a2 <;> cases s1 <;> cases s2 <;> cases ss1 <;> cases ss2 <;> cases ia <;>
      simp [hs, ← decide_not, not_lt]

/-- Claim C10: a present city criterion whose value is the empty string is
no constraint at all — `filter({city: ""})` returns the entire population —
while a present numeric bound or is_active bound always constrains. -/
theorem empty_city_criterion_unconstrained :
    ∀ (pop : List Customer) (a : ℤ) (b : Bool),
      filter_customers pop { city := some "" } = pop ∧
      filter_customers pop { min_age := some a } = pop.filter (fun c => a ≤ c.age) ∧
      filter_customers pop { is_active := some b } = pop.filter (fun c => c.is_active = b) := by
  intro pop a b
  refine ⟨?_, ?_, ?_⟩
  · have h : ∀ c : Customer, matchesCriteria c { city := some "" } = true := by
      intro c; simp [matchesCriteria]
    simp [filter_customers, h]
  · unfold filter_customers
    apply List.filter_congr
    intro x _
    simp [matchesCriteria, ← decide_not, not_lt]
  · unfold filter_customers
    apply List.filter_congr
    intro x _
    simp [matchesCriteria]

/-- Claim C2, counterexample: on the population `[ankaraCustomer]` and the
criteria `{city: ""}` the implementation returns the whole population,
while matching as the claim words it (a present city criterion is an exact
case-insensitive match) returns nothing. -/
theorem filter_empty_city_cex :
    filter_customers [ankaraCustomer] { city := some "" } ≠
      [ankaraCustomer].filter (fun c => specMatchesCriteria c { city := some "" }) := by
  decide

/-- Claim C2 as amended: provided a present city criterion is a non-empty
string, `filter` returns exactly the customers satisfying every present
criterion (AND semantics, case-insensitive city equality, inclusive
numeric bounds, exact boolean equality); with no criteria present it
returns the entire population. -/
theorem filter_customers_spec :
    ∀ (pop : List Customer) (cr : Criteria),
      ((∀ s, cr.city = some s → s ≠ "") →
        filter_customers pop cr = pop.filter (fun c => specMatchesCriteria c cr)) ∧
      filter_customers pop Criteria.empty = pop := by
  intro pop cr
  constructor
  · intro hcity
    unfold filter_customers
    exact List.filter_congr fun x _ => matchesCriteria_eq_spec x cr hcity
  · have h : ∀ c : Customer, matchesCriteria c Criteria.empty = true := by
      intro c; simp [matchesCriteria, Criteria.empty]
    simp [filter_customers, h]

/-- Witness for the amended claim C2 at a concrete population and criteria
set. -/
theorem filter_customers_spec_witness :
    filter_customers [ankaraCustomer, izmirCustomer, ankaraCustomer2]
        { city := some "Ankara", min_age := some 26 } =
      [ankaraCustomer, izmirCustomer, ankaraCustomer2].filter
        (fun c => specMatchesCriteria c { city := some "Ankara", min_age := some 26 }) :=
  (filter_customers_spec [ankaraCustomer, izmirCustomer, ankaraCustomer2]
    { city := some "Ankara", min_age := some 26 }).1
    (by intro s hs; cases hs; decide)

/-- Claim C8: segment statistics — for a non-empty list, counts, means
rounded to 1 decimal, revenue sum rounded to 2 decimals and revenue per
customer rounded to 2 decimals; for the empty list, an all-zero aggregate
with no division performed. -/
theorem get_segment_statistics_spec :
    ∀ (customers : List Customer),
      get_segment_statistics [] = ⟨0, 0, 0, 0, 0, 0⟩ ∧
      (customers ≠ [] →
        get_segment_statistics customers =
          ⟨customers.length,
           (customers.filter (fun c => c.is_active)).length,
           pyRound 1 ((((customers.map (fun c => c.age)).sum : ℤ) : ℚ) / customers.length),
           pyRound 1 ((((customers.map (fun c => c.spending_score)).sum : ℤ) : ℚ) / customers.length),
           pyRound 2 ((customers.map (fun c => c.total_spent)).sum),
           pyRound 2 ((customers.map (fun c => c.total_spent)).sum / customers.length)⟩) := by
  intro customers
  refine ⟨rfl, fun h => ?_⟩
  unfold get_segment_statistics
  rw [if_neg (by simpa [List.isEmpty_iff] using h)]

/-- Witness for claim C8 on a concrete two-customer segment. -/
theorem get_segment_statistics_witness :
    get_segment_statistics [ankaraCustomer, izmirCustomer] = ⟨2, 2, 35, 55, 300, 150⟩ := by
  have h := (get_segment_statistics_spec [ankaraCustomer, izmirCustomer]).2 (by simp)
  rw [h]
  norm_num [ankaraCustomer, izmirCustomer, pyRound, roundHalfEven]

/-- Claim C5, counterexample: the stats map of a freshly created campaign
has no `failed` entry at all, where the claim asserts a present `failed`
counter equal to 0. -/
theorem create_campaign_failed_absent_cex :
    create_campaign [] "id-1" sampleDate "Spring Sale" "Hello {name}" { city := some "Ankara" } =
      .ok (createdSample, [createdSample]) ∧
    createdSample.stats.failed = none ∧ createdSample.stats.failed ≠ some 0 :=
  ⟨rfl, rfl, by decide⟩

/-- Claim C5 as amended: `create` fails with ValidationError (persisting
nothing) exactly when title, content_template, or criteria is empty/blank
after trimming; on success it persists and returns a campaign with the
injected fresh id, status Draft, the creation instant, and a stats map
holding exactly the three counters sent, opened, clicked, all 0 (no
`failed` key is written; readers default it to 0). -/
theorem create_campaign_spec :
    ∀ (repo : List Campaign) (newId : String) (now : DateTime)
      (title content_template : String) (cr : Criteria),
      ((∃ e, create_campaign repo newId now title content_template cr = .error e) ↔
        (pyStrip title = "" ∨ pyStrip content_template = "" ∨ cr = Criteria.empty)) ∧
      (∀ c repo', create_campaign repo newId now title content_template cr = .ok (c, repo') →
        c = ⟨newId, pyStrip title, pyStrip content_template, cr, "Draft", now,
             { sent := some 0, opened := some 0, clicked := some 0, failed := none }⟩ ∧
        repo' = repo ++ [c]) := by
  intro repo newId now title content_template cr
  unfold create_campaign
  by_cases h1 : pyStrip title = ""
  · simp [h1]
  · rw [if_neg h1]
    by_cases h2 : pyStrip content_template = ""
    · simp [h1, h2]
    · rw [if_neg h2]
      by_cases h3 : cr = Criteria.empty
      · simp [h1, h2, h3]
      · rw [if_neg h3]
        constructor
        · simp [h1, h2, h3]
        · intro c repo' h
          injection h with h
          injection h with hc hrepo
          subst hc
          exact ⟨rfl, hrepo.symm⟩

/-- Witness for the amended claim C5 at concrete inputs. -/
theorem create_campaign_spec_witness :
    createdSample = ⟨"id-1", pyStrip "Spring Sale", pyStrip "Hello {name}",
        { city := some "Ankara" }, "Draft", sampleDate,
        { sent := some 0, opened := some 0, clicked := some 0, failed := none }⟩ ∧
    [createdSample] = [] ++ [createdSample] :=
  (create_campaign_spec [] "id-1" sampleDate "Spring Sale" "Hello {name}"
    { city := some "Ankara" }).2 createdSample [createdSample] rfl

/-- The equation of a launch that proceeds to the send loop: the campaign
resolves, is not yet Sent, and the matched audience is non-empty. -/
theorem launch_run {repo : List Campaign} {customers : List Customer}
    {send : String → String → String → Bool} {cid : String} {c : Campaign}
    (hget : get_by_id repo cid = some c) (hst : ¬ c.status = "Sent")
    (hfil : ¬ (filter_customers customers c.target_segment_criteria).isEmpty = true) :
    launch_campaign repo customers send cid =
      (let targets := filter_customers customers c.target_segment_criteria
       let ok : Customer → Bool := fun cu =>
         send cu.email c.title (personalize_content c.content_template cu)
       .ok (⟨true, "Campaign launched successfully", targets.countP ok,
             some (targets.countP (fun cu => !ok cu)), targets.length, some c.id⟩,
            updateEntity repo c.id
              { c with status := "Sent",
                       stats := { c.stats with sent := some ((targets.countP ok : ℕ) : ℤ) } },
            targets.map (fun cu =>
              ⟨cu.email, c.title, personalize_content c.content_template cu⟩))) := by
  simp [launch_campaign, hget, hst, hfil]

/-- Claim C4: launching a Draft campaign whose criteria match zero
customers returns the non-fatal failure dict (success false, 0 e-mails
sent, audience size 0), invokes the sender on nobody (empty trace), and
leaves the stored collection — hence the campaign's Draft status and its
stats — entirely unchanged. -/
theorem launch_empty_audience_spec :
    ∀ (repo : List Campaign) (customers : List Customer)
      (send : String → String → String → Bool) (cid : String) (c : Campaign),
      get_by_id repo cid = some c → c.status = "Draft" →
      filter_customers customers c.target_segment_criteria = [] →
      launch_campaign repo customers send cid =
        .ok (⟨false, "No customers match target criteria", 0, none, 0, none⟩, repo, []) := by
  intro repo customers send cid c hget hst hfil
  simp [launch_campaign, hget, hst, hfil]

/-- Witness for claim C4: a draft campaign targeting a city nobody lives
in. -/
theorem launch_empty_audience_witness :
    launch_campaign [nowhereCampaign] [ankaraCustomer] (fun _ _ _ => true) "cmp-2" =
      .ok (⟨false, "No customers match target criteria", 0, none, 0, none⟩,
           [nowhereCampaign], []) :=
  launch_empty_audience_spec [nowhereCampaign] [ankaraCustomer] (fun _ _ _ => true)
    "cmp-2" nowhereCampaign rfl rfl (by decide)

/-- Claim C1: launching a Draft campaign with a non-empty matched audience
attempts one send per matched customer in filter order (the trace),
counts successes and failures, marks the campaign Sent with stats.sent set
to the success count, persists it, and returns the success dict carrying
the counts and the audience size. -/
theorem launch_success_spec :
    ∀ (repo : List Campaign) (customers : List Customer)
      (send : String → String → String → Bool) (cid : String) (c : Campaign),
      get_by_id repo cid = some c → c.status = "Draft" →
      filter_customers customers c.target_segment_criteria ≠ [] →
      launch_campaign repo customers send cid =
        (let targets := filter_customers customers c.target_segment_criteria
         let ok : Customer → Bool := fun cu =>
           send cu.email c.title (personalize_content c.content_template cu)
         .ok (⟨true, "Campaign launched successfully", targets.countP ok,
               some (targets.countP (fun cu => !ok cu)), targets.length, some c.id⟩,
              updateEntity repo c.id
                { c with status := "Sent",
                         stats := { c.stats with sent := some ((targets.countP ok : ℕ) : ℤ) } },
              targets.map (fun cu =>
                ⟨cu.email, c.title, personalize_content c.content_template cu⟩))) := by
  intro repo customers send cid c hget hst hfil
  exact launch_run hget (by simp [hst]) (by simpa [List.isEmpty_iff] using hfil)

/-- Witness for claim C1: two of three customers are in Ankara (one with
mixed-case spelling), the sender always succeeds; both are attempted in
filter order, sent becomes 2, failed 0, status Sent. -/
theorem launch_success_witness :
    launch_campaign [draftCampaign] [ankaraCustomer, izmirCustomer, ankaraCustomer2]
        (fun _ _ _ => true) "cmp-1" =
      .ok (⟨true, "Campaign launched successfully", 2, some 0, 2, some "cmp-1"⟩,
           [⟨"cmp-1", "Hello", "Hi {name} from {city}", { city := some "Ankara" }, "Sent",
             sampleDate, { sent := some 2, opened := some 0, clicked := some 0 }⟩],
           [⟨"ada@example.com", "Hello", "Hi Ada from Ankara"⟩,
            ⟨"cy@example.com", "Hello", "Hi Cy from aNkArA"⟩]) := by
  have h := launch_success_spec [draftCampaign]
    [ankaraCustomer, izmirCustomer, ankaraCustomer2] (fun _ _ _ => true) "cmp-1"
    draftCampaign rfl rfl (by decide)
  rw [h]
  rfl

/-- A Sent campaign can never be relaunched: the guard fires before any
audience resolution. -/
theorem launch_already_sent {repo : List Campaign} {customers : List Customer}
    {send : String → String → String → Bool} {cid : String} {c : Campaign}
    (hget : get_by_id repo cid = some c) (hst : c.status = "Sent") :
    launch_campaign repo customers send cid = .error "Campaign has already been sent" := by
  simp [launch_campaign, hget, hst]

/-- Claim C3: launch fails with NotFound when the id does not resolve and
with AlreadySent when the status is already Sent; after a successful
launch, relaunching the same id fails with AlreadySent while the stored
campaign still carries the Sent status and the stats the first launch
wrote (the failed call, being an error, changes nothing). -/
theorem launch_not_found_already_sent_spec :
    ∀ (repo : List Campaign) (customers : List Customer)
      (send : String → String → String → Bool) (cid : String),
      (get_by_id repo cid = none →
        launch_campaign repo customers send cid =
          .error ("Campaign with ID " ++ cid ++ " not found")) ∧
      (∀ c, get_by_id repo cid = some c → c.status = "Sent" →
        launch_campaign repo customers send cid = .error "Campaign has already been sent") ∧
      (∀ res repo' trace,
        launch_campaign repo customers send cid = .ok (res, repo', trace) →
        res.success = true →
        (∃ c', get_by_id repo' cid = some c' ∧ c'.status = "Sent" ∧
          c'.stats.sent = some (res.emails_sent : ℤ)) ∧
        launch_campaign repo' customers send cid = .error "Campaign has already been sent") := by
  intro repo customers send cid
  refine ⟨fun h => by simp [launch_campaign, h],
          fun c hget hst => by simp [launch_campaign, hget, hst], ?_⟩
  intro res repo' trace hok hsucc
  cases hget : get_by_id repo cid with
  | none => simp [launch_campaign, hget] at hok
  | some c =>
    have hcid : c.id = cid := get_by_id_id hget
    by_cases hst : c.status = "Sent"
    · simp [launch_campaign, hget, hst] at hok
    · by_cases hemp :
        (filter_customers customers c.target_segment_criteria).isEmpty = true
      · simp [launch_campaign, hget, hst, hemp] at hok
        rw [← hok.1] at hsucc
        cases hsucc
      · rw [launch_run hget hst hemp] at hok
        simp only [Except.ok.injEq, Prod.mk.injEq] at hok
        obtain ⟨hres, hrepo', htrace⟩ := hok
        subst res
        subst repo'
        subst trace
        rw [hcid]
        have hg := get_by_id_updateEntity
          ⟨cid, c.title, c.content_template, c.target_segment_criteria, "Sent",
           c.created_at,
           ⟨some (((filter_customers customers c.target_segment_criteria).countP
             (fun cu => send cu.email c.title
               (personalize_content c.content_template cu)) : ℕ) : ℤ),
            c.stats.opened, c.stats.clicked, c.stats.failed⟩⟩
          hget rfl
        exact ⟨⟨_, hg, rfl, rfl⟩, launch_already_sent hg rfl⟩

/-- Witness for claim C3: a successful first launch of the Ankara draft
campaign, then the relaunch refusal with preserved Sent stats. -/
theorem launch_relaunch_witness :
    (∃ c', get_by_id [⟨"cmp-1", "Hello", "Hi {name} from {city}", { city := some "Ankara" },
          "Sent", sampleDate, { sent := some 2, opened := some 0, clicked := some 0 }⟩]
        "cmp-1" = some c' ∧ c'.status = "Sent" ∧ c'.stats.sent = some ((2 : ℕ) : ℤ)) ∧
    launch_campaign [⟨"cmp-1", "Hello", "Hi {name} from {city}", { city := some "Ankara" },
          "Sent", sampleDate, { sent := some 2, opened := some 0, clicked := some 0 }⟩]
        [ankaraCustomer, izmirCustomer, ankaraCustomer2] (fun _ _ _ => true) "cmp-1" =
      .error "Campaign has already been sent" :=
  (launch_not_found_already_sent_spec [draftCampaign]
    [ankaraCustomer, izmirCustomer, ankaraCustomer2] (fun _ _ _ => true) "cmp-1").2.2
    ⟨true, "Campaign launched successfully", 2, some 0, 2, some "cmp-1"⟩
    [⟨"cmp-1", "Hello", "Hi {name} from {city}", { city := some "Ankara" }, "Sent",
      sampleDate, { sent := some 2, opened := some 0, clicked := some 0 }⟩]
    [⟨"ada@example.com", "Hello", "Hi Ada from Ankara"⟩,
     ⟨"cy@example.com", "Hello", "Hi Cy from aNkArA"⟩]
    rfl rfl

/-- Claim C6: performance metrics — each output field equals the spec's
formula over the stored raw counters, with zero denominators guarded to 0,
2-decimal rounding (1 decimal for the engagement score), and NotFound for
an absent id. -/
theorem get_campaign_performance_spec :
    ∀ (repo : List Campaign) (cid : String),
      (get_by_id repo cid = none →
        get_campaign_performance repo cid =
          .error ("Campaign with ID " ++ cid ++ " not found.")) ∧
      (∀ c, get_by_id repo cid = some c →
        get_campaign_performance repo cid =
          (let sent := c.stats.sent.getD 0
           let opened := c.stats.opened.getD 0
           let clicked := c.stats.clicked.getD 0
           let failed := c.stats.failed.getD 0
           let open_rate : ℚ := if 0 < sent then (opened : ℚ) / (sent : ℚ) * 100 else 0
           let ctr : ℚ := if 0 < sent then (clicked : ℚ) / (sent : ℚ) * 100 else 0
           .ok ⟨sent, opened, clicked, failed,
                pyRound 2 (if 0 < sent + failed
                  then (sent : ℚ) / ((sent + failed : ℤ) : ℚ) * 100 else 0),
                pyRound 2 open_rate,
                pyRound 2 (if 0 < opened then (clicked : ℚ) / (opened : ℚ) * 100 else 0),
                pyRound 2 ctr,
                pyRound 2 ((clicked : ℚ) * 15),
                pyRound 1 (min 100 (open_rate * (6/10) + ctr * 4)),
                c.title, c.status, c.target_segment_criteria⟩)) := by
  intro repo cid
  exact ⟨fun h => by simp [get_campaign_performance, h],
         fun c hget => by simp [get_campaign_performance, hget]⟩

/-- Witness for claim C6: the spec's scenario stats {sent 100, opened 40,
clicked 8, failed absent} give 100.00, 40.00, 20.00, 8.00, 120.00, 56.0. -/
theorem get_campaign_performance_witness :
    get_campaign_performance [sentCampaign] "cmp-3" =
      .ok ⟨100, 40, 8, 0, 100, 40, 20, 8, 120, 56, "Perf", "Sent",
           { city := some "Ankara" }⟩ := by
  have h := (get_campaign_performance_spec [sentCampaign] "cmp-3").2 sentCampaign rfl
  rw [h]
  norm_num [sentCampaign, pyRound, roundHalfEven, Performance.mk.injEq, min_def]

/-- Python truncation agrees with the floor on non-negative values. -/
theorem pyInt_eq_floor {q : ℚ} (h : 0 ≤ q) : pyInt q = ⌊q⌋ := by
  simp [pyInt, h]

/-- When the trigger condition fails, the simulation is a no-op: it
returns the stored campaign and leaves the repository untouched. -/
theorem simulate_noop {repo : List Campaign} {r1 r2 : ℚ} {cid : String} {c : Campaign}
    (hget : get_by_id repo cid = some c)
    (h : ¬ (0 < c.stats.sent.getD 0 ∧ c.stats.opened.getD 0 = 0 ∧
      c.stats.clicked.getD 0 = 0)) :
    simulate_engagement repo r1 r2 cid = .ok (c, repo) := by
  simp [simulate_engagement, hget, h]

/-- The campaign produced by the C7 witness simulation. -/
def simulatedSample : Campaign :=
  ⟨"cmp-4", "Sim", "Hi {name}", { city := some "Ankara" }, "Sent",
   sampleDate, { sent := some 100, opened := some 40, clicked := some 4 }⟩

/-- Claim C7: engagement simulation mutates the store only when the trigger
(sent positive, opened and clicked zero) holds, in which case opened
becomes floor(sent·r1) and clicked becomes floor(opened·r2) for the drawn
rates and the result is persisted; otherwise it is a no-op, so once the
simulated counters are non-zero a repeated call (any draws) changes
nothing; an absent id fails with NotFound. -/
theorem simulate_engagement_spec :
    ∀ (repo : List Campaign) (r1 r2 : ℚ) (cid : String),
      (get_by_id repo cid = none →
        simulate_engagement repo r1 r2 cid =
          .error ("Campaign with ID " ++ cid ++ " not found.")) ∧
      (∀ c, get_by_id repo cid = some c →
        (¬ (0 < c.stats.sent.getD 0 ∧ c.stats.opened.getD 0 = 0 ∧
            c.stats.clicked.getD 0 = 0) →
          simulate_engagement repo r1 r2 cid = .ok (c, repo)) ∧
        ((0 < c.stats.sent.getD 0 ∧ c.stats.opened.getD 0 = 0 ∧
            c.stats.clicked.getD 0 = 0) →
          (1/4 : ℚ) ≤ r1 → r1 ≤ 13/20 → (1/20 : ℚ) ≤ r2 → r2 ≤ 1/5 →
          ∃ c2,
            c2 = { c with stats := { c.stats with
                     opened := some ⌊(c.stats.sent.getD 0 : ℚ) * r1⌋,
                     clicked := some ⌊(⌊(c.stats.sent.getD 0 : ℚ) * r1⌋ : ℚ) * r2⌋ } } ∧
            simulate_engagement repo r1 r2 cid = .ok (c2, updateEntity repo cid c2) ∧
            (∀ r3 r4 : ℚ, ¬ c2.stats.opened.getD 0 = 0 ∨ ¬ c2.stats.clicked.getD 0 = 0 →
              simulate_engagement (updateEntity repo cid c2) r3 r4 cid =
                .ok (c2, updateEntity repo cid c2)))) := by
  intro repo r1 r2 cid
  refine ⟨fun h => by simp [simulate_engagement, h], ?_⟩
  intro c hget
  have hcid : c.id = cid := get_by_id_id hget
  constructor
  · intro htrig
    exact simulate_noop hget htrig
  · intro htrig hr1 hr1u hr2 hr2u
    have hsq : (0 : ℚ) ≤ (c.stats.sent.getD 0 : ℚ) := by
      exact_mod_cast le_of_lt htrig.1
    have h1 : pyInt ((c.stats.sent.getD 0 : ℚ) * r1) = ⌊(c.stats.sent.getD 0 : ℚ) * r1⌋ :=
      pyInt_eq_floor (mul_nonneg hsq (le_trans (by norm_num) hr1))
    have hopq : (0 : ℚ) ≤ (⌊(c.stats.sent.getD 0 : ℚ) * r1⌋ : ℚ) := by
      exact_mod_cast Int.floor_nonneg.mpr (mul_nonneg hsq (le_trans (by norm_num) hr1))
    have h2 : pyInt ((⌊(c.stats.sent.getD 0 : ℚ) * r1⌋ : ℚ) * r2) =
        ⌊(⌊(c.stats.sent.getD 0 : ℚ) * r1⌋ : ℚ) * r2⌋ :=
      pyInt_eq_floor (mul_nonneg hopq (le_trans (by norm_num) hr2))
    refine ⟨_, rfl, ?_, ?_⟩
    · simp [simulate_engagement, hget, htrig.1, htrig.2.1, htrig.2.2, h1, h2]
    · intro r3 r4 hnz
      have hg := get_by_id_updateEntity
        { c with stats := { c.stats with
            opened := some ⌊(c.stats.sent.getD 0 : ℚ) * r1⌋,
            clicked := some ⌊(⌊(c.stats.sent.getD 0 : ℚ) * r1⌋ : ℚ) * r2⌋ } }
        hget hcid
      refine simulate_noop hg (fun hcon => ?_)
      rcases hnz with h | h
      · exact h (by simpa using hcon.2.1)
      · exact h (by simpa using hcon.2.2)

/-- Witness for claim C7: sent 100 with draws 2/5 and 1/10 yields opened
40 and clicked 4; a further call with different draws is a no-op. -/
theorem simulate_engagement_witness :
    simulate_engagement [justLaunchedCampaign] (2/5) (1/10) "cmp-4" =
      .ok (simulatedSample, [simulatedSample]) ∧
    simulate_engagement [simulatedSample] (1/2) (1/5) "cmp-4" =
      .ok (simulatedSample, [simulatedSample]) := by
  obtain ⟨c2, hc2, heq, hrep⟩ :=
    ((simulate_engagement_spec [justLaunchedCampaign] (2/5) (1/10) "cmp-4").2
      justLaunchedCampaign rfl).2 (by decide) (by norm_num) (by norm_num) (by norm_num)
      (by norm_num)
  have hcs : c2 = simulatedSample := by
    rw [hc2]
    simp [justLaunchedCampaign, simulatedSample]
    norm_num
  rw [hcs] at heq hrep
  have hupd : updateEntity [justLaunchedCampaign] "cmp-4" simulatedSample =
      [simulatedSample] := by
    simp [updateEntity, justLaunchedCampaign]
  rw [hupd] at heq hrep
  exact ⟨heq, hrep (1/2) (1/5) (Or.inl (by decide))⟩

/-! Digit-level lemmas for the ISO-8601 round trip. -/

/-- `padRev` always yields exactly `w` characters. -/
theorem padRev_length (w : ℕ) : ∀ n, (padRev w n).length = w := by
  induction w with
  | zero => intro n; rfl
  | succ w ih => intro n; simp [padRev, ih]

/-- `pad` always yields exactly `w` characters. -/
theorem pad_length (w n : ℕ) : (pad w n).length = w := by
  simp [pad, padRev_length]

/-- Code point of a digit character. -/
theorem digitChar_toNat {d : ℕ} (h : d < 10) : (digitChar d).toNat = 48 + d := by
  interval_cases d <;> decide

/-- Digit characters pass the digit test. -/
theorem isDigitChar_digitChar {d : ℕ} (h : d < 10) : isDigitChar (digitChar d) = true := by
  interval_cases d <;> decide

/-- Reading back the little-endian digits of `n` recovers `n` modulo
`10 ^ w`. -/
theorem valRev_padRev (w : ℕ) : ∀ n, valRev (padRev w n) = n % 10 ^ w := by
  induction w with
  | zero => intro n; simp [padRev, valRev, Nat.mod_one]
  | succ w ih =>
    intro n
    have hd : n % 10 < 10 := Nat.mod_lt _ (by norm_num)
    simp only [padRev, valRev, ih, digitChar_toNat hd, Nat.add_sub_cancel_left]
    rw [pow_succ']
    exact (Nat.mod_mul).symm

/-- Every character `padRev` emits is a digit. -/
theorem all_digits_padRev (w : ℕ) : ∀ n, (padRev w n).all isDigitChar = true := by
  induction w with
  | zero => intro n; rfl
  | succ w ih =>
    intro n
    have hd : n % 10 < 10 := Nat.mod_lt _ (by norm_num)
    simp [padRev, ih, isDigitChar_digitChar hd]

/-- Every character `pad` emits is a digit. -/
theorem all_digits_pad (w n : ℕ) : (pad w n).all isDigitChar = true := by
  simp [pad, List.all_reverse, all_digits_padRev]

/-- Reading back the big-endian fixed-width rendering of `n` recovers
`n`. -/
theorem valBE_pad (w n : ℕ) (h : n < 10 ^ w) : valBE (pad w n) = n := by
  simp [valBE, pad, List.reverse_reverse, valRev_padRev, Nat.mod_eq_of_lt h]

/-- `readField` exactly consumes a fixed-width rendering at the front. -/
theorem readField_pad (w n : ℕ) (rest : List Char) (h : n < 10 ^ w) :
    readField w (pad w n ++ rest) = some (n, rest) := by
  unfold readField
  have hlen : (pad w n).length = w := pad_length w n
  rw [List.take_left' hlen, List.drop_left' hlen]
  rw [if_pos ⟨hlen, all_digits_pad w n⟩, valBE_pad w n h]

/-- `readField` on a bare fixed-width rendering consumes everything. -/
theorem readField_pad_nil (w n : ℕ) (h : n < 10 ^ w) :
    readField w (pad w n) = some (n, []) := by
  simpa using readField_pad w n [] h

/-- `expectChar` consumes the expected separator. -/
theorem expectChar_cons (c : Char) (rest : List Char) :
    expectChar c (c :: rest) = some rest := by
  simp [expectChar]

set_option maxHeartbeats 1000000 in
/-- Parsing an in-range datetime's ISO rendering recovers the datetime. -/
theorem fromisoformat_isoformat (d : DateTime) (h : d.wf) :
    fromisoformat (isoformat d) = some d := by
  obtain ⟨y, mo, da, hh, mi, ss, u⟩ := d
  obtain ⟨hy, hmo, hda, hhh, hmi, hss, hu⟩ := h
  have hy' : y < 10 ^ 4 := by simpa using hy
  have hmo' : mo < 10 ^ 2 := by simpa using hmo
  have hda' : da < 10 ^ 2 := by simpa using hda
  have hhh' : hh < 10 ^ 2 := by simpa using hhh
  have hmi' : mi < 10 ^ 2 := by simpa using hmi
  have hss' : ss < 10 ^ 2 := by simpa using hss
  have hu' : u < 10 ^ 6 := by simpa using hu
  by_cases hmu : u = 0
  · subst hmu
    show fromisoformat (pad 4 y ++ '-' :: pad 2 mo ++ '-' :: pad 2 da ++ 'T' ::
        pad 2 hh ++ ':' :: pad 2 mi ++ ':' :: pad 2 ss ++ ([] : List Char)) = _
    simp only [List.cons_append, List.append_assoc, List.append_nil]
    simp only [fromisoformat, readField_pad, readField_pad_nil, expectChar_cons,
      Option.bind_eq_bind', Option.some_bind, hy', hmo', hda', hhh', hmi', hss']
  · show fromisoformat (pad 4 y ++ '-' :: pad 2 mo ++ '-' :: pad 2 da ++ 'T' ::
        pad 2 hh ++ ':' :: pad 2 mi ++ ':' :: pad 2 ss ++
        (if u = 0 then ([] : List Char) else '.' :: pad 6 u)) = _
    rw [if_neg hmu]
    simp only [List.cons_append, List.append_assoc]
    simp only [fromisoformat, readField_pad, readField_pad_nil, expectChar_cons,
      Option.bind_eq_bind', Option.some_bind, hy', hmo', hda', hhh', hmi', hss', hu',
      eq_self_iff_true, if_true]

/-- Claim C9: serialization round trip — deserializing the serialized form
of a Customer, and of a Campaign with in-range created_at (its timestamp
going through the ISO-8601 string), recovers the entity with every field,
the nested stats map and the criteria included. -/
theorem serialize_roundtrip_spec :
    ∀ (cu : Customer) (c : Campaign), c.created_at.wf →
      Customer.from_dict (Customer.to_dict cu) = cu ∧
      Campaign.from_dict (Campaign.to_dict c) = some c := by
  intro cu c h
  refine ⟨rfl, ?_⟩
  simp [Campaign.to_dict, Campaign.from_dict, fromisoformat_isoformat c.created_at h]

/-- Witness for claim C9 on concrete entities. -/
theorem serialize_roundtrip_witness :
    Customer.from_dict (Customer.to_dict ankaraCustomer) = ankaraCustomer ∧
    Campaign.from_dict (Campaign.to_dict draftCampaign) = some draftCampaign :=
  serialize_roundtrip_spec ankaraCustomer draftCampaign (by decide)

end Marketing
